import Mathlib

/-!
Shallow embedding of the microlensing magnification engine of `src/main.py`
(a gravitational-lens brightness simulation: a black hole, a star orbiting
it, and a planet orbiting the star).  Python floats are modelled as real
numbers; numpy's `sqrt`, `cos`, `sin` become `Real.sqrt`, `Real.cos`,
`Real.sin`; the per-frame loop that appends to `magnification_data_list`
becomes a `List.map` over `List.range num_frames`.  Definition names follow
the source.
-/

namespace GravLens

open Filter Topology

noncomputable section

/-- Gravitational constant, `G = 6.674e-11` (src line 10). -/
def G : ℝ := 6.674e-11

/-- Speed of light, `c = 3e8` (src line 11). -/
def c : ℝ := 3e8

/-- `AU_TO_M = 149_597_870_700` (src line 13). -/
def AU_TO_M : ℝ := 149597870700

/-- `LY_TO_M = 9.461e15` (src line 14). -/
def LY_TO_M : ℝ := 9.461e15

/-- The closed-form point-mass-lens magnification expression of src line 131:
`(u**2 + 2) / (u * np.sqrt(u**2 + 4))`. -/
def point_lens_magnification_formula (u : ℝ) : ℝ :=
  (u ^ 2 + 2) / (u * Real.sqrt (u ^ 2 + 4))

/-- `calculate_magnification_point_lens` (src lines 126-132): returns the
fixed ceiling `200.0` when `u < 1e-4`, otherwise the closed-form value. -/
def calculate_magnification_point_lens (u : ℝ) : ℝ :=
  if u < 1e-4 then 200.0
  else point_lens_magnification_formula u

/-- `num_frames = 600` (src line 138). -/
def num_frames : ℕ := 600

/-- `D_L_m = 5000 * LY_TO_M` (src lines 149, 154). -/
def D_L_m : ℝ := 5000 * LY_TO_M

/-- `D_LS_m = 5000 * LY_TO_M` (src lines 150, 155). -/
def D_LS_m : ℝ := 5000 * LY_TO_M

/-- `D_S_m = (5000 + 5000) * LY_TO_M` (src lines 151, 156). -/
def D_S_m : ℝ := (5000 + 5000) * LY_TO_M

/-- Einstein radius in meters for a body of the given mass,
`np.sqrt((4 * G * M / c**2) * (D_L_m * D_LS_m / D_S_m))`
(src lines 162, 167, 170: the same expression with the three masses). -/
def einstein_radius_m (mass_kg : ℝ) : ℝ :=
  Real.sqrt ((4 * G * mass_kg / c ^ 2) * (D_L_m * D_LS_m / D_S_m))

/-- `sim_scale_factor = 2.5` (src line 175). -/
def sim_scale_factor : ℝ := 2.5

/-- `sim_unit_m_per_plotly_unit = einstein_radius_bh_m / sim_scale_factor`
(src line 176). -/
def sim_unit_m_per_plotly_unit (bh_mass_kg : ℝ) : ℝ :=
  einstein_radius_m bh_mass_kg / sim_scale_factor

/-- `sim_range_plotly_units = sim_scale_factor * 2` (src line 177). -/
def sim_range_plotly_units : ℝ := sim_scale_factor * 2

/-- `bh_x = 0` (src line 180). -/
def bh_x : ℝ := 0

/-- `bh_y = 0` (src line 180). -/
def bh_y : ℝ := 0

/-- `source_y = -sim_range_plotly_units * 0.8` (src line 184). -/
def source_y : ℝ := -sim_range_plotly_units * 0.8

/-- `star_orbit_cycles = 1.0` (src line 192). -/
def star_orbit_cycles : ℝ := 1.0

/-- `star_angular_speed = 2 * np.pi * star_orbit_cycles / num_frames`
(src line 193). -/
def star_angular_speed : ℝ := 2 * Real.pi * star_orbit_cycles / num_frames

/-- `planet_orbit_cycles = 10.0` (src line 196). -/
def planet_orbit_cycles : ℝ := 10.0

/-- `planet_angular_speed = 2 * np.pi * planet_orbit_cycles / num_frames`
(src line 197). -/
def planet_angular_speed : ℝ := 2 * Real.pi * planet_orbit_cycles / num_frames

/-- `source_apparent_x_trajectory = np.linspace(-sim_range_plotly_units*0.5,
sim_range_plotly_units*0.5, num_frames)` (src line 202); element `i` of
`np.linspace(a, b, n)` is `a + (b - a) * i / (n - 1)`. -/
def source_apparent_x_trajectory (i : ℕ) : ℝ :=
  -sim_range_plotly_units * 0.5 +
    (sim_range_plotly_units * 0.5 - -sim_range_plotly_units * 0.5) * i /
      ((num_frames : ℝ) - 1)

/-- The run-time inputs of `run_simulation` (src lines 135-136);
`animation_speed` only paces the UI animation and does not enter the math. -/
structure Config where
  bh_mass_kg : ℝ
  star_mass_kg : ℝ
  planet_mass_kg : ℝ
  bh_star_distance_m : ℝ
  planet_star_distance_m : ℝ

/-- `star_orbit_angle = star_angular_speed * i` (src line 207). -/
def star_orbit_angle (i : ℕ) : ℝ := star_angular_speed * i

/-- `current_star_x_bh_centered` (src line 208). -/
def current_star_x_bh_centered (cfg : Config) (i : ℕ) : ℝ :=
  (cfg.bh_star_distance_m / sim_unit_m_per_plotly_unit cfg.bh_mass_kg) *
    Real.cos (star_orbit_angle i)

/-- `current_star_y_bh_centered` (src line 209). -/
def current_star_y_bh_centered (cfg : Config) (i : ℕ) : ℝ :=
  (cfg.bh_star_distance_m / sim_unit_m_per_plotly_unit cfg.bh_mass_kg) *
    Real.sin (star_orbit_angle i)

/-- `planet_orbit_angle = planet_angular_speed * i` (src line 212). -/
def planet_orbit_angle (i : ℕ) : ℝ := planet_angular_speed * i

/-- `current_planet_x_star_centered` (src line 213). -/
def current_planet_x_star_centered (cfg : Config) (i : ℕ) : ℝ :=
  (cfg.planet_star_distance_m / sim_unit_m_per_plotly_unit cfg.bh_mass_kg) *
    Real.cos (planet_orbit_angle i)

/-- `current_planet_y_star_centered` (src line 214). -/
def current_planet_y_star_centered (cfg : Config) (i : ℕ) : ℝ :=
  (cfg.planet_star_distance_m / sim_unit_m_per_plotly_unit cfg.bh_mass_kg) *
    Real.sin (planet_orbit_angle i)

/-- `current_planet_x_bh_centered` (src line 217): the planet's absolute
position is the star's position plus the planet's star-centered offset. -/
def current_planet_x_bh_centered (cfg : Config) (i : ℕ) : ℝ :=
  current_star_x_bh_centered cfg i + current_planet_x_star_centered cfg i

/-- `current_planet_y_bh_centered` (src line 218). -/
def current_planet_y_bh_centered (cfg : Config) (i : ℕ) : ℝ :=
  current_star_y_bh_centered cfg i + current_planet_y_star_centered cfg i

/-- `current_apparent_source_x = source_apparent_x_trajectory[i]`
(src line 222). -/
def current_apparent_source_x (i : ℕ) : ℝ := source_apparent_x_trajectory i

/-- `u_bh` (src line 227): distance from the black hole at the origin to the
apparent source point, over the black hole's Einstein radius in plotly
units. -/
def u_bh (cfg : Config) (i : ℕ) : ℝ :=
  Real.sqrt (current_apparent_source_x i ^ 2 + source_y ^ 2) /
    (einstein_radius_m cfg.bh_mass_kg / sim_unit_m_per_plotly_unit cfg.bh_mass_kg)

/-- `magnification_bh` (src line 228). -/
def magnification_bh (cfg : Config) (i : ℕ) : ℝ :=
  calculate_magnification_point_lens (u_bh cfg i)

/-- `dist_star_to_LOS = np.abs(current_star_x_bh_centered -
current_apparent_source_x)` (src line 234). -/
def dist_star_to_LOS (cfg : Config) (i : ℕ) : ℝ :=
  |current_star_x_bh_centered cfg i - current_apparent_source_x i|

/-- `u_star_microlens` (src line 235). -/
def u_star_microlens (cfg : Config) (i : ℕ) : ℝ :=
  dist_star_to_LOS cfg i /
    (einstein_radius_m cfg.star_mass_kg / sim_unit_m_per_plotly_unit cfg.bh_mass_kg)

/-- `perturbation_star` (src line 236). -/
def perturbation_star (cfg : Config) (i : ℕ) : ℝ :=
  calculate_magnification_point_lens (u_star_microlens cfg i)

/-- `dist_planet_to_LOS` (src line 240). -/
def dist_planet_to_LOS (cfg : Config) (i : ℕ) : ℝ :=
  |current_planet_x_bh_centered cfg i - current_apparent_source_x i|

/-- `u_planet_microlens` (src line 241). -/
def u_planet_microlens (cfg : Config) (i : ℕ) : ℝ :=
  dist_planet_to_LOS cfg i /
    (einstein_radius_m cfg.planet_mass_kg / sim_unit_m_per_plotly_unit cfg.bh_mass_kg)

/-- `perturbation_planet` (src line 242). -/
def perturbation_planet (cfg : Config) (i : ℕ) : ℝ :=
  calculate_magnification_point_lens (u_planet_microlens cfg i)

/-- `final_magnification` at frame `i` (src lines 246-247): the product of
the three per-body magnifications, clamped to `500.0`. -/
def final_magnification (cfg : Config) (i : ℕ) : ℝ :=
  min (magnification_bh cfg i * perturbation_star cfg i * perturbation_planet cfg i)
    500.0

/-- `magnification_data_list` (src lines 187, 248): one `final_magnification`
value appended per loop iteration `i = 0, ..., num_frames - 1`. -/
def magnification_data_list (cfg : Config) : List ℝ :=
  (List.range num_frames).map (final_magnification cfg)

/-- The source's default slider configuration (src lines 61, 73, 85, 97,
110): black hole `1e36` kg, star `1e30` kg, planet `1e25` kg, star orbit
`500` AU, planet orbit `1` AU. -/
def defaultConfig : Config :=
  ⟨1e36, 1e30, 1e25, 500 * AU_TO_M, 1 * AU_TO_M⟩

/-- A configuration with a non-positive (invalid) primary mass, used to probe
the engine's behaviour on invalid static input. -/
def invalidConfig : Config :=
  ⟨-1, 1e30, 1e25, 500 * AU_TO_M, 1 * AU_TO_M⟩

end

/-! ### Helper lemmas -/

noncomputable section

lemma formula_pos {u : ℝ} (hu : 0 < u) : 0 < point_lens_magnification_formula u := by
  unfold point_lens_magnification_formula
  apply div_pos (by positivity)
  exact mul_pos hu (Real.sqrt_pos.mpr (by positivity))

lemma one_le_formula {u : ℝ} (hu : 0 < u) : 1 ≤ point_lens_magnification_formula u := by
  unfold point_lens_magnification_formula
  rw [le_div_iff₀ (mul_pos hu (Real.sqrt_pos.mpr (by positivity)))]
  have hs := Real.sq_sqrt (show (0:ℝ) ≤ u ^ 2 + 4 by positivity)
  have hsn := Real.sqrt_nonneg (u ^ 2 + 4)
  nlinarith [sq_nonneg (u * Real.sqrt (u ^ 2 + 4) - (u ^ 2 + 2))]

lemma one_le_calculate_magnification (u : ℝ) :
    1 ≤ calculate_magnification_point_lens u := by
  unfold calculate_magnification_point_lens
  split
  · norm_num
  · rename_i h
    push_neg at h
    exact one_le_formula (lt_of_lt_of_le (by norm_num) h)

lemma one_le_mul3 {a b c : ℝ} (ha : 1 ≤ a) (hb : 1 ≤ b) (hc : 1 ≤ c) :
    1 ≤ a * b * c := by
  have hab : 1 ≤ a * b := by nlinarith
  nlinarith

lemma mag_list_getD (cfg : Config) (i : ℕ) (h : i < num_frames) :
    (magnification_data_list cfg).getD i 0 = final_magnification cfg i := by
  unfold magnification_data_list
  rw [List.getD_eq_getElem?_getD, List.getElem?_map, List.getElem?_range h]
  rfl

end

/-! ### Claims -/

noncomputable section

/-- C2: the single-lens magnification returns exactly the ceiling constant
`200.0` for every `u` below the clamp floor `1e-4` (in particular at `u = 0`,
deterministically — the embedding in `ℝ` has no `NaN`/`Inf`), and returns the
closed-form value `(u² + 2) / (u · sqrt(u² + 4))` for every `u ≥ 1e-4`. -/
theorem C2_single_lens_clamp_and_formula (u : ℝ) :
    (u < 1e-4 → calculate_magnification_point_lens u = 200) ∧
    (1e-4 ≤ u → calculate_magnification_point_lens u =
      (u ^ 2 + 2) / (u * Real.sqrt (u ^ 2 + 4))) := by
  constructor
  · intro h
    unfold calculate_magnification_point_lens
    rw [if_pos h]
    norm_num
  · intro h
    simp [calculate_magnification_point_lens, point_lens_magnification_formula,
      not_lt.mpr h]

/-- Witness for C2 at `u = 0` exactly: perfect alignment yields the ceiling. -/
theorem C2_witness : calculate_magnification_point_lens 0 = 200 :=
  (C2_single_lens_clamp_and_formula 0).1 (by norm_num)

/-- C1: for every frame `i`, the recorded combined magnification is the
product of the three clamped single-lens factors — primary (black hole),
secondary (star), tertiary (planet), each evaluated at that body's own
impact parameter — clamped to the global ceiling `500`. -/
theorem C1_combined_magnification_is_clamped_product (cfg : Config) (i : ℕ)
    (h : i < num_frames) :
    (magnification_data_list cfg).getD i 0 =
      min (calculate_magnification_point_lens (u_bh cfg i) *
           calculate_magnification_point_lens (u_star_microlens cfg i) *
           calculate_magnification_point_lens (u_planet_microlens cfg i)) 500 := by
  rw [mag_list_getD cfg i h]
  norm_num [final_magnification, magnification_bh, perturbation_star,
    perturbation_planet]

/-- Witness for C1 at the default configuration, frame `0`. -/
theorem C1_witness :
    (magnification_data_list defaultConfig).getD 0 0 =
      min (calculate_magnification_point_lens (u_bh defaultConfig 0) *
           calculate_magnification_point_lens (u_star_microlens defaultConfig 0) *
           calculate_magnification_point_lens (u_planet_microlens defaultConfig 0))
        500 :=
  C1_combined_magnification_is_clamped_product defaultConfig 0 (by decide)

/-- C3: every value of the produced magnification series lies in `[1, 500]`:
each single-lens factor is at least `1` (for every impact parameter the code
can produce), so the product is at least `1`, and the final `min` with the
global ceiling keeps each frame's value at most `500`. -/
theorem C3_series_values_between_one_and_ceiling (cfg : Config) (i : ℕ)
    (h : i < num_frames) :
    1 ≤ (magnification_data_list cfg).getD i 0 ∧
      (magnification_data_list cfg).getD i 0 ≤ 500 := by
  rw [mag_list_getD cfg i h]
  unfold final_magnification
  constructor
  · apply le_min _ (by norm_num)
    exact one_le_mul3 (one_le_calculate_magnification _)
      (one_le_calculate_magnification _) (one_le_calculate_magnification _)
  · calc min (magnification_bh cfg i * perturbation_star cfg i *
          perturbation_planet cfg i) 500.0 ≤ 500.0 := min_le_right _ _
      _ ≤ 500 := by norm_num

/-- Witness for C3 at the default configuration, frame `0`. -/
theorem C3_witness :
    1 ≤ (magnification_data_list defaultConfig).getD 0 0 ∧
      (magnification_data_list defaultConfig).getD 0 0 ≤ 500 :=
  C3_series_values_between_one_and_ceiling defaultConfig 0 (by decide)

/-- C4: for every frame `i`, the secondary (star) position is
`radius · (cos θ, sin θ)` with `θ = 2π · cycles · i / num_frames + 0` (the
code's phase offset is zero), and the tertiary (planet) position is its own
circular-orbit offset added to the secondary's instantaneous position at the
same frame. -/
theorem C4_orbit_positions (cfg : Config) (i : ℕ) :
    current_star_x_bh_centered cfg i =
      (cfg.bh_star_distance_m / sim_unit_m_per_plotly_unit cfg.bh_mass_kg) *
        Real.cos (2 * Real.pi * star_orbit_cycles * i / num_frames + 0) ∧
    current_star_y_bh_centered cfg i =
      (cfg.bh_star_distance_m / sim_unit_m_per_plotly_unit cfg.bh_mass_kg) *
        Real.sin (2 * Real.pi * star_orbit_cycles * i / num_frames + 0) ∧
    current_planet_x_bh_centered cfg i =
      current_star_x_bh_centered cfg i +
        (cfg.planet_star_distance_m / sim_unit_m_per_plotly_unit cfg.bh_mass_kg) *
          Real.cos (2 * Real.pi * planet_orbit_cycles * i / num_frames + 0) ∧
    current_planet_y_bh_centered cfg i =
      current_star_y_bh_centered cfg i +
        (cfg.planet_star_distance_m / sim_unit_m_per_plotly_unit cfg.bh_mass_kg) *
          Real.sin (2 * Real.pi * planet_orbit_cycles * i / num_frames + 0) := by
  have hs : star_orbit_angle i =
      2 * Real.pi * star_orbit_cycles * i / num_frames + 0 := by
    unfold star_orbit_angle star_angular_speed
    ring
  have hp : planet_orbit_angle i =
      2 * Real.pi * planet_orbit_cycles * i / num_frames + 0 := by
    unfold planet_orbit_angle planet_angular_speed
    ring
  refine ⟨?_, ?_, ?_, ?_⟩
  · unfold current_star_x_bh_centered
    rw [hs]
  · unfold current_star_y_bh_centered
    rw [hs]
  · unfold current_planet_x_bh_centered current_planet_x_star_centered
    rw [hp]
  · unfold current_planet_y_bh_centered current_planet_y_star_centered
    rw [hp]

lemma star_orbit_angle_zero : star_orbit_angle 0 = 0 := by
  unfold star_orbit_angle
  norm_num

lemma star_orbit_angle_half : star_orbit_angle (num_frames / 2) = Real.pi := by
  unfold star_orbit_angle star_angular_speed star_orbit_cycles num_frames
  norm_num
  ring

lemma einstein_radius_default_pos :
    0 < einstein_radius_m defaultConfig.bh_mass_kg := by
  unfold einstein_radius_m
  apply Real.sqrt_pos.mpr
  norm_num [defaultConfig, G, c, D_L_m, D_LS_m, D_S_m, LY_TO_M]

lemma default_star_radius_pos :
    0 < defaultConfig.bh_star_distance_m /
      sim_unit_m_per_plotly_unit defaultConfig.bh_mass_kg := by
  apply div_pos
  · norm_num [defaultConfig, AU_TO_M]
  · unfold sim_unit_m_per_plotly_unit
    exact div_pos einstein_radius_default_pos (by norm_num [sim_scale_factor])

/-- Counterexample to C5: with the default configuration (star orbit radius
500 AU), at frame `num_frames / 2 = 300` the star's orbit — one full cycle
over the run — is at angle `π`, i.e. at `(-radius, 0)`, not back at
`(radius, 0)`. -/
theorem C5_counterexample :
    ¬ (current_star_x_bh_centered defaultConfig (num_frames / 2) =
         defaultConfig.bh_star_distance_m /
           sim_unit_m_per_plotly_unit defaultConfig.bh_mass_kg ∧
       current_star_y_bh_centered defaultConfig (num_frames / 2) = 0) := by
  intro hc
  have hx : current_star_x_bh_centered defaultConfig (num_frames / 2) =
      -(defaultConfig.bh_star_distance_m /
        sim_unit_m_per_plotly_unit defaultConfig.bh_mass_kg) := by
    unfold current_star_x_bh_centered
    rw [star_orbit_angle_half, Real.cos_pi]
    ring
  have := default_star_radius_pos
  rw [hx] at hc
  linarith [hc.1]

/-- C5 (amended): with phase offset `0`, the secondary's position at frame
`0` is `(radius, 0)`; at frame `num_frames / 2` (even frame count, one full
cycle over the run) it is at the diametrically opposite point
`(-radius, 0)` — the orbit returns to `(radius, 0)` only at frame
`num_frames`, one past the simulated range. -/
theorem C5_amended_half_cycle_is_opposite (cfg : Config) :
    (current_star_x_bh_centered cfg 0 =
       cfg.bh_star_distance_m / sim_unit_m_per_plotly_unit cfg.bh_mass_kg ∧
     current_star_y_bh_centered cfg 0 = 0) ∧
    (current_star_x_bh_centered cfg (num_frames / 2) =
       -(cfg.bh_star_distance_m / sim_unit_m_per_plotly_unit cfg.bh_mass_kg) ∧
     current_star_y_bh_centered cfg (num_frames / 2) = 0) := by
  refine ⟨⟨?_, ?_⟩, ?_, ?_⟩
  · unfold current_star_x_bh_centered
    rw [star_orbit_angle_zero, Real.cos_zero, mul_one]
  · unfold current_star_y_bh_centered
    rw [star_orbit_angle_zero, Real.sin_zero, mul_zero]
  · unfold current_star_x_bh_centered
    rw [star_orbit_angle_half, Real.cos_pi]
    ring
  · unfold current_star_y_bh_centered
    rw [star_orbit_angle_half, Real.sin_pi, mul_zero]

/-- C7: each body's Einstein radius is computed by the single formula
`R_E = sqrt(4·G·M/c² · D_L·D_LS/D_S)` from that body's mass and the fixed
distance constants, and it is strictly increasing in the mass (all else
fixed). -/
theorem C7_einstein_radius_formula_and_monotone :
    (∀ M : ℝ, einstein_radius_m M =
      Real.sqrt ((4 * G * M / c ^ 2) * (D_L_m * D_LS_m / D_S_m))) ∧
    ∀ M₁ M₂ : ℝ, 0 ≤ M₁ → M₁ < M₂ →
      einstein_radius_m M₁ < einstein_radius_m M₂ := by
  constructor
  · intro M
    rfl
  · intro M₁ M₂ h0 hlt
    unfold einstein_radius_m
    have hk : 0 < D_L_m * D_LS_m / D_S_m := by
      norm_num [D_L_m, D_LS_m, D_S_m, LY_TO_M]
    have hG : (0:ℝ) < G := by norm_num [G]
    have hc2 : (0:ℝ) < c ^ 2 := by norm_num [c]
    apply Real.sqrt_lt_sqrt
    · exact mul_nonneg
        (div_nonneg (mul_nonneg (mul_nonneg (by norm_num) hG.le) h0) hc2.le) hk.le
    · apply mul_lt_mul_of_pos_right _ hk
      rw [div_lt_div_iff_of_pos_right hc2]
      nlinarith

/-- Witness for C7: a unit mass has a strictly smaller Einstein radius than
a doubled mass. -/
theorem C7_witness : einstein_radius_m 1 < einstein_radius_m 2 :=
  C7_einstein_radius_formula_and_monotone.2 1 2 (by norm_num) (by norm_num)

/-- Counterexample to C8: for the primary (black hole) lens the code does
not use the absolute projected (x-axis) distance to the line-of-sight
anchor.  At frame `0` of the default configuration the anchor's apparent x
is `-2.5` and the black hole sits at the origin, so the projected distance
over the Einstein radius (2.5 plotly units) would give `u = 1`; the code
instead uses the full 2D distance `sqrt((-2.5)² + (-4)²)` to the apparent
source point, giving `u = sqrt(22.25)/2.5 > 1`. -/
theorem C8_counterexample :
    u_bh defaultConfig 0 ≠
      |bh_x - current_apparent_source_x 0| /
        (einstein_radius_m defaultConfig.bh_mass_kg /
          sim_unit_m_per_plotly_unit defaultConfig.bh_mass_kg) := by
  have hR := einstein_radius_default_pos
  have hratio : einstein_radius_m defaultConfig.bh_mass_kg /
      sim_unit_m_per_plotly_unit defaultConfig.bh_mass_kg = 2.5 := by
    unfold sim_unit_m_per_plotly_unit sim_scale_factor
    rw [div_div_eq_mul_div, mul_comm, mul_div_assoc, div_self (ne_of_gt hR),
      mul_one]
  have hsx : current_apparent_source_x 0 = -2.5 := by
    unfold current_apparent_source_x source_apparent_x_trajectory
      sim_range_plotly_units sim_scale_factor num_frames
    norm_num
  have hsy : source_y = -4 := by
    norm_num [source_y, sim_range_plotly_units, sim_scale_factor]
  have hlhs : u_bh defaultConfig 0 = Real.sqrt 22.25 / 2.5 := by
    unfold u_bh
    rw [hratio, hsx, hsy]
    norm_num
  have hrhs : |bh_x - current_apparent_source_x 0| /
      (einstein_radius_m defaultConfig.bh_mass_kg /
        sim_unit_m_per_plotly_unit defaultConfig.bh_mass_kg) = 1 := by
    rw [hratio, hsx]
    norm_num [bh_x]
    rw [abs_of_nonneg (by norm_num : (0:ℝ) ≤ 5 / 2)]
    norm_num
  rw [hlhs, hrhs]
  have h1 : (2.5:ℝ) < Real.sqrt 22.25 := by
    apply Real.lt_sqrt_of_sq_lt
    norm_num
  intro hEq
  rw [div_eq_iff (by norm_num : (2.5:ℝ) ≠ 0)] at hEq
  linarith

/-- C8 (amended): the secondary's and tertiary's impact parameters are the
absolute projected (x-axis) distance between the body's position and the
source's apparent x position, over that body's Einstein radius in
simulation units; the primary's impact parameter instead uses the full 2D
distance between the primary (at the origin) and the source's apparent
position `(x_src, source_y)`, over the primary's Einstein radius in
simulation units. -/
theorem C8_amended_impact_parameter_geometry (cfg : Config) (i : ℕ) :
    u_star_microlens cfg i =
      |current_star_x_bh_centered cfg i - current_apparent_source_x i| /
        (einstein_radius_m cfg.star_mass_kg /
          sim_unit_m_per_plotly_unit cfg.bh_mass_kg) ∧
    u_planet_microlens cfg i =
      |current_planet_x_bh_centered cfg i - current_apparent_source_x i| /
        (einstein_radius_m cfg.planet_mass_kg /
          sim_unit_m_per_plotly_unit cfg.bh_mass_kg) ∧
    u_bh cfg i =
      Real.sqrt ((current_apparent_source_x i - bh_x) ^ 2 +
          (source_y - bh_y) ^ 2) /
        (einstein_radius_m cfg.bh_mass_kg /
          sim_unit_m_per_plotly_unit cfg.bh_mass_kg) := by
  refine ⟨rfl, rfl, ?_⟩
  unfold u_bh bh_x bh_y
  norm_num

/-- Counterexample to C9: the code performs no setup validation and defines
no `ConfigurationError`.  With an invalid non-positive primary mass (`-1`
kg) the run still executes and returns the complete 600-frame magnification
series instead of failing. -/
theorem C9_counterexample :
    (magnification_data_list invalidConfig).length = 600 := by
  simp [magnification_data_list, num_frames]

/-- C9 (amended): the engine validates nothing and can never fail: for every
configuration (valid or not) the run is total and produces the full series
of `num_frames = 600` values; the frame count is a hard-coded constant, so a
zero frame count cannot arise, and all per-frame arithmetic is
closed-form. -/
theorem C9_amended_no_validation_and_total (cfg : Config) :
    (magnification_data_list cfg).length = num_frames ∧ num_frames = 600 := by
  constructor
  · simp [magnification_data_list]
  · rfl

/-- C10: the single-lens function is discontinuous at the clamp floor: at
`u = 1e-4` exactly it takes the closed-form branch, whose value is
approximately `10^4` (strictly between `9999` and `10001`), far above the
below-floor return value `200`; single-lens outputs at or above the floor
are therefore not capped at `200` — only the combined product is capped (at
`500`, by `final_magnification`). -/
theorem C10_floor_value_not_capped :
    calculate_magnification_point_lens 1e-4 =
      point_lens_magnification_formula 1e-4 ∧
    200 < calculate_magnification_point_lens 1e-4 ∧
    9999 < calculate_magnification_point_lens 1e-4 ∧
    calculate_magnification_point_lens 1e-4 < 10001 := by
  have heq : calculate_magnification_point_lens 1e-4 =
      point_lens_magnification_formula 1e-4 := by
    unfold calculate_magnification_point_lens
    rw [if_neg (lt_irrefl _)]
  have hs_lo : (2:ℝ) ≤ Real.sqrt ((1e-4:ℝ) ^ 2 + 4) := by
    apply Real.le_sqrt_of_sq_le
    norm_num
  have hs_hi : Real.sqrt ((1e-4:ℝ) ^ 2 + 4) ≤ 2.0001 := by
    calc Real.sqrt ((1e-4:ℝ) ^ 2 + 4) ≤ Real.sqrt ((2.0001:ℝ) ^ 2) :=
          Real.sqrt_le_sqrt (by norm_num)
      _ = 2.0001 := Real.sqrt_sq (by norm_num)
  have hd_pos : 0 < (1e-4:ℝ) * Real.sqrt ((1e-4:ℝ) ^ 2 + 4) :=
    mul_pos (by norm_num) (Real.sqrt_pos.mpr (by norm_num))
  have hlo : (9999:ℝ) < point_lens_magnification_formula 1e-4 := by
    unfold point_lens_magnification_formula
    rw [lt_div_iff₀ hd_pos]
    nlinarith [hs_hi]
  have hhi : point_lens_magnification_formula 1e-4 < 10001 := by
    unfold point_lens_magnification_formula
    rw [div_lt_iff₀ hd_pos]
    nlinarith [hs_lo]
  exact ⟨heq, by rw [heq]; linarith, by rw [heq]; exact hlo,
    by rw [heq]; exact hhi⟩

lemma formula_sq {u : ℝ} (hu : 0 < u) :
    point_lens_magnification_formula u ^ 2 = 1 + 4 / (u ^ 4 + 4 * u ^ 2) := by
  unfold point_lens_magnification_formula
  have hs : Real.sqrt (u ^ 2 + 4) ^ 2 = u ^ 2 + 4 :=
    Real.sq_sqrt (by positivity)
  have hu' : u ≠ 0 := ne_of_gt hu
  have hd : u ^ 4 + 4 * u ^ 2 ≠ 0 := by positivity
  rw [div_pow, mul_pow, hs]
  field_simp
  ring

lemma formula_strictAntiOn :
    StrictAntiOn point_lens_magnification_formula (Set.Ioi 0) := by
  intro a ha b hb hab
  simp only [Set.mem_Ioi] at ha hb
  have hA := formula_sq ha
  have hB := formula_sq hb
  have hda : 0 < a ^ 4 + 4 * a ^ 2 := by positivity
  have h2 : a ^ 2 < b ^ 2 := by nlinarith
  have h4p : a ^ 4 < b ^ 4 := by
    nlinarith [mul_pos (show (0:ℝ) < a ^ 2 + b ^ 2 by positivity)
      (sub_pos.mpr h2)]
  have hden : a ^ 4 + 4 * a ^ 2 < b ^ 4 + 4 * b ^ 2 := by linarith
  have hsq : point_lens_magnification_formula b ^ 2 <
      point_lens_magnification_formula a ^ 2 := by
    rw [hA, hB]
    have := div_lt_div_of_pos_left (show (0:ℝ) < 4 by norm_num) hda hden
    linarith
  by_contra hcon
  push_neg at hcon
  have := pow_le_pow_left₀ (formula_pos ha).le hcon 2
  linarith

lemma formula_tendsto_atTop_zero :
    Tendsto point_lens_magnification_formula (𝓝[>] (0:ℝ)) atTop := by
  have hg : Tendsto (fun u : ℝ => u * Real.sqrt (u ^ 2 + 4)) (𝓝[>] (0:ℝ))
      (𝓝[>] (0:ℝ)) := by
    apply tendsto_nhdsWithin_of_tendsto_nhds_of_eventually_within
    · have hcont : Continuous fun u : ℝ => u * Real.sqrt (u ^ 2 + 4) :=
        continuous_id.mul (((continuous_pow 2).add continuous_const).sqrt)
      have h0 : Tendsto (fun u : ℝ => u * Real.sqrt (u ^ 2 + 4))
          (𝓝[>] (0:ℝ)) (𝓝 ((0:ℝ) * Real.sqrt ((0:ℝ) ^ 2 + 4))) :=
        (hcont.tendsto 0).mono_left nhdsWithin_le_nhds
      simpa using h0
    · filter_upwards [self_mem_nhdsWithin] with u hu
      exact mul_pos hu (Real.sqrt_pos.mpr (by positivity))
  have hinv : Tendsto (fun u : ℝ => (u * Real.sqrt (u ^ 2 + 4))⁻¹)
      (𝓝[>] (0:ℝ)) atTop := hg.inv_tendsto_zero
  have hnum : Tendsto (fun u : ℝ => u ^ 2 + 2) (𝓝[>] (0:ℝ)) (𝓝 2) := by
    have hcont : Continuous fun u : ℝ => u ^ 2 + 2 :=
      (continuous_pow 2).add continuous_const
    have h0 : Tendsto (fun u : ℝ => u ^ 2 + 2) (𝓝[>] (0:ℝ))
        (𝓝 ((0:ℝ) ^ 2 + 2)) :=
      (hcont.tendsto 0).mono_left nhdsWithin_le_nhds
    simpa using h0
  have hmul := hnum.mul_atTop (show (0:ℝ) < 2 by norm_num) hinv
  apply hmul.congr
  intro u
  unfold point_lens_magnification_formula
  rw [div_eq_mul_inv]

lemma formula_tendsto_one_atTop :
    Tendsto point_lens_magnification_formula atTop (𝓝 1) := by
  have h1 : Tendsto (fun u : ℝ => u ^ 4 + 4 * u ^ 2) atTop atTop := by
    apply tendsto_atTop_mono' atTop _ tendsto_id
    filter_upwards [eventually_ge_atTop (1:ℝ)] with u hu
    show id u ≤ u ^ 4 + 4 * u ^ 2
    simp only [id]
    nlinarith
  have h2 : Tendsto (fun u : ℝ => 4 / (u ^ 4 + 4 * u ^ 2)) atTop (𝓝 0) :=
    tendsto_const_nhds.div_atTop h1
  have h3 : Tendsto (fun u : ℝ => 1 + 4 / (u ^ 4 + 4 * u ^ 2)) atTop (𝓝 1) := by
    have hadd : Tendsto (fun u : ℝ => (1:ℝ) + 4 / (u ^ 4 + 4 * u ^ 2)) atTop
        (𝓝 (1 + 0)) := tendsto_const_nhds.add h2
    simpa using hadd
  have h4 : Tendsto (fun u : ℝ => Real.sqrt (1 + 4 / (u ^ 4 + 4 * u ^ 2)))
      atTop (𝓝 1) := by
    have hs := (Real.continuous_sqrt.tendsto 1).comp h3
    simpa [Function.comp] using hs
  apply h4.congr'
  filter_upwards [eventually_gt_atTop (0:ℝ)] with u hu
  rw [← formula_sq hu, Real.sqrt_sq (formula_pos hu).le]

/-- C6: the closed-form single-lens magnification
`A(u) = (u²+2)/(u·sqrt(u²+4))` is strictly decreasing on `(0, ∞)`, diverges
(tends to `+∞`) as `u → 0⁺`, and tends to `1` as `u → ∞`. -/
theorem C6_formula_strictly_decreasing_and_limits :
    StrictAntiOn point_lens_magnification_formula (Set.Ioi 0) ∧
    Tendsto point_lens_magnification_formula (𝓝[>] (0:ℝ)) atTop ∧
    Tendsto point_lens_magnification_formula atTop (𝓝 1) :=
  ⟨formula_strictAntiOn, formula_tendsto_atTop_zero, formula_tendsto_one_atTop⟩

end

end GravLens
